import Mathlib

/-!
Shallow embedding of the NEET quiz generator (src/unnamed/part_000, the current
App component; src/App.jsx is an earlier revision of the same component).
The embedding covers the encoder, prompt builder, transport retry loop,
response parse stage, quiz scoring, the plain-text/CSV exporters, and the
submit handler's observable state effects.
-/

namespace NeetQuiz

/-! ## Data model -/

/-- An uploaded file: its name, declared MIME type, and raw bytes. -/
structure File where
  name : String
  type : String
  bytes : List Nat
deriving DecidableEq, Repr

/-- A typed question record as described by the response schema:
`questionText`, `options`, `correctAnswer`, `solution`. -/
structure Question where
  questionText : String
  options : List String
  correctAnswer : String
  solution : String
deriving DecidableEq, Repr, Inhabited

/-- The result object built by `calculateResults`:
`score` (correct count), `totalQuestions`, and `accuracy` in percent.
JS computes accuracy in floating point; here it is the exact rational. -/
structure ScoreResult where
  score : Nat
  totalQuestions : Nat
  accuracy : ℚ
deriving DecidableEq, Repr

/-! ## Encoder: `fileToBase64`

The component reads the file as a base64 data URL and keeps the payload after
the comma, i.e. the base64 encoding of the raw bytes. -/

/-- The standard base64 alphabet. -/
def base64Alphabet : String :=
  "ABCDEFGHIJKLMNOPQRSTUVWXYZabcdefghijklmnopqrstuvwxyz0123456789+/"

/-- The base64 digit for a 6-bit group. -/
def base64Digit (n : Nat) : Char := base64Alphabet.toList.getD n 'A'

/-- Base64 encoding of a byte list, three bytes at a time, with `=` padding. -/
def base64Encode : List Nat → String
  | [] => ""
  | [b1] =>
      String.mk [base64Digit (b1 / 4), base64Digit (b1 % 4 * 16)] ++ "=="
  | [b1, b2] =>
      String.mk [base64Digit (b1 / 4), base64Digit (b1 % 4 * 16 + b2 / 16),
        base64Digit (b2 % 16 * 4)] ++ "="
  | b1 :: b2 :: b3 :: rest =>
      String.mk [base64Digit (b1 / 4), base64Digit (b1 % 4 * 16 + b2 / 16),
        base64Digit (b2 % 16 * 4 + b3 / 64), base64Digit (b3 % 64)] ++ base64Encode rest

/-- Embedding of `fileToBase64`: the base64 payload of the file bytes. -/
def fileToBase64 (f : File) : String := base64Encode f.bytes

/-! ## Prompt builder

`onSubmit` computes `numQuestions = data.numQuestions || 10` and builds the
`parts` array: one text part from a fixed template with `numQuestions`
interpolated, then one `inlineData` part per file, in input order. -/

/-- A part of the request `contents`: either text or inline file data. -/
inductive Part where
  | text (s : String) : Part
  | inlineData (mimeType : String) (data : String) : Part
deriving DecidableEq, Repr

/-- The template text before the interpolated question count. -/
def promptHead : String :=
  "\n          From the following files, generate "

/-- The template text after the interpolated question count. -/
def promptTail : String :=
  " NEET-level multiple-choice questions.\n          For each question, provide 4 options (A, B, C, D) and a single correct answer.\n          Make sure there is exactly the amount of questions as specified above.\n          Also, provide a detailed solution/explanation for the correct answer.\n\n          The questions must strictly adhere to the NEET syllabus (Physics, Chemistry, Biology).\n          The questions should be challenging and cover key concepts from the provided content.\n\n          The response must be in a specific JSON format to be parsed correctly.\n          Do not include any other text or markdown outside of the JSON.\n          "

/-- The instruction text with the question count interpolated. -/
def instructionText (numQuestions : Int) : String :=
  promptHead ++ toString numQuestions ++ promptTail

/-- Embedding of `data.numQuestions || 10` under JS numeric truthiness:
the missing value and `0` are falsy and replaced by the default `10`;
every other number, including negative ones, is kept. -/
def effectiveCount (raw : Option Int) : Int :=
  match raw with
  | none => 10
  | some v => if v = 0 then 10 else v

/-- The `parts` array of the request: the instruction text followed by one
inline-data attachment per file, in input order. -/
def buildParts (files : List File) (numQuestions : Int) : List Part :=
  Part.text (instructionText numQuestions)
    :: files.map (fun f => Part.inlineData f.type (fileToBase64 f))

/-- The attachment (mimeType, data) pairs of a parts list, in order. -/
def attachments : List Part → List (String × String)
  | [] => []
  | Part.text _ :: rest => attachments rest
  | Part.inlineData m d :: rest => (m, d) :: attachments rest

/-- The leading instruction text of a parts list, when present. -/
def instructionOf : List Part → Option String
  | Part.text s :: _ => some s
  | _ => none

/-- The outbound payload: `contents: [ role: user, parts ]` plus the fixed
generation config. Only the parts carry submission-dependent data. -/
structure GenerationRequest where
  role : String
  parts : List Part
  responseMimeType : String
deriving DecidableEq, Repr

/-- Embedding of the payload construction in `onSubmit`. -/
def buildPayload (files : List File) (numQuestions : Int) : GenerationRequest :=
  { role := "user", parts := buildParts files numQuestions,
    responseMimeType := "application/json" }

/-! ## Transport client: the retry loop

`onSubmit` loops `while (retries < MAX_RETRIES)`: fetch; on an ok response
break; on an exception keep the previous `response`; then `retries++` and
sleep `2^retries * 100`. Afterwards it throws unless a response is ok. -/

/-- One fetch attempt either throws (network error) or returns a response
with an `ok` status flag and a decoded body. -/
inductive Outcome (α : Type) where
  | thrown : Outcome α
  | resp (ok : Bool) (body : α) : Outcome α
deriving DecidableEq, Repr

/-- An attempt counts as failed when it throws or its status is not ok. -/
def isFail {α : Type} : Outcome α → Bool
  | Outcome.thrown => true
  | Outcome.resp ok _ => !ok

/-- Observable state of the retry loop at exit: the last assigned `response`
(with its ok flag), the number of fetch calls made, and the sleep durations
performed, in order. -/
structure LoopState (α : Type) where
  response : Option (Bool × α)
  attempts : Nat
  sleeps : List Nat
deriving DecidableEq, Repr

/-- Embedding of the `while (retries < MAX_RETRIES)` loop body; `fuel` is
`MAX_RETRIES - retries`. The transport is indexed by the attempt number
(the value of `retries` at the fetch). -/
def retryGo {α : Type} (t : Nat → Outcome α) :
    Nat → Nat → Nat → Option (Bool × α) → List Nat → LoopState α
  | 0, _retries, attempts, response, sleeps => ⟨response, attempts, sleeps⟩
  | fuel + 1, retries, attempts, response, sleeps =>
    match t retries with
    | Outcome.resp true body => ⟨some (true, body), attempts + 1, sleeps⟩
    | Outcome.resp false body =>
        retryGo t fuel (retries + 1) (attempts + 1) (some (false, body))
          (sleeps ++ [2 ^ (retries + 1) * 100])
    | Outcome.thrown =>
        retryGo t fuel (retries + 1) (attempts + 1) response
          (sleeps ++ [2 ^ (retries + 1) * 100])

/-- `const MAX_RETRIES = 5`. -/
def MAX_RETRIES : Nat := 5

/-- The full retry loop, started with `response = null`, `retries = 0`. -/
def retryLoop {α : Type} (t : Nat → Outcome α) : LoopState α :=
  retryGo t MAX_RETRIES 0 0 none []

/-- The message of the error thrown when no attempt succeeded. -/
def exhaustedMsg : String := "API call failed after multiple retries."

/-- Embedding of the post-loop check: return the ok response body, or throw
`API call failed after multiple retries.` when `!response || !response.ok`. -/
def transportClient {α : Type} (t : Nat → Outcome α) : Except String α :=
  match (retryLoop t).response with
  | some (true, body) => Except.ok body
  | _ => Except.error exhaustedMsg

/-! ## Response parse stage

`onSubmit` reads `result.candidates[0].content.parts[0].text`, decodes it
with `JSON.parse`, and stores `parsedData.questions` without validating the
question records. JSON values are embedded as a small inductive; `JSON.parse`
itself is an engine primitive and is passed in as a `decode` function. -/

/-- A JSON value. -/
inductive JValue where
  | jnull : JValue
  | jbool (b : Bool) : JValue
  | jnum (n : Int) : JValue
  | jstr (s : String) : JValue
  | jarr (xs : List JValue) : JValue
  | jobj (fields : List (String × JValue)) : JValue
deriving Repr

/-- Object property access; `none` models `undefined`. -/
def getField : JValue → String → Option JValue
  | JValue.jobj fields, key => fields.lookup key
  | _, _ => none

/-- Array index access; `none` models `undefined`. -/
def getIndex : JValue → Nat → Option JValue
  | JValue.jarr xs, i => xs.get? i
  | _, _ => none

/-- Coercion of a JSON value to the string it holds. -/
def asString : JValue → Option String
  | JValue.jstr s => some s
  | _ => none

/-- Embedding of `result.candidates[0].content.parts[0].text`; `none` models
the `TypeError` thrown on the way (or a missing/non-string `text`, where the
subsequent `JSON.parse` of `undefined` throws a `SyntaxError`). -/
def extractText (result : JValue) : Option String := do
  let candidates ← getField result "candidates"
  let c0 ← getIndex candidates 0
  let content ← getField c0 "content"
  let parts ← getField content "parts"
  let p0 ← getIndex parts 0
  let t ← getField p0 "text"
  asString t

/-- Embedding of lines 141-146 of the submit handler: extract the text
fragment, `JSON.parse` it via `decode`, and take `parsedData.questions`.
The outer `none` models a thrown error (caught and turned into the error
state); a `some` carries the stored `questions` value, which may itself be
`none` (`undefined`) and is not validated in any way. -/
def parseStage (decode : String → Option JValue) (result : JValue) :
    Option (Option JValue) :=
  match extractText result with
  | none => none
  | some s =>
    match decode s with
    | none => none
    | some parsed => some (getField parsed "questions")

/-! ## Scoring: `calculateResults` -/

/-- Embedding of the `questions.forEach((question, index) => ...)` counter,
starting at index `i`: a question is counted iff the selected answer equals
its `correctAnswer` by exact string equality (an unanswered index holds
`undefined`, which never equals a string). -/
def countCorrectFrom (answers : Nat → Option String) : Nat → List Question → Nat
  | _, [] => 0
  | i, q :: rest =>
      (if answers i = some q.correctAnswer then 1 else 0)
        + countCorrectFrom answers (i + 1) rest

/-- Embedding of `calculateResults`: correct count, total, and
`(correctCount / totalQuestions) * 100`. -/
def calculateResults (questions : List Question) (answers : Nat → Option String) :
    ScoreResult :=
  let correctCount := countCorrectFrom answers 0 questions
  let totalQuestions := questions.length
  { score := correctCount, totalQuestions := totalQuestions,
    accuracy := ((correctCount : ℚ) / (totalQuestions : ℚ)) * 100 }

/-! ## Exporter: `handleExport` -/

/-- The option letter for a 0-based option index: `String.fromCharCode(65 + i)`. -/
def letterOf (i : Nat) : String := String.singleton (Char.ofNat (65 + i))

/-- The option lines of the plain-text export, letter-prefixed, starting at
option index `i`. -/
def optionLinesFrom : Nat → List String → String
  | _, [] => ""
  | i, opt :: rest => "  " ++ letterOf i ++ ". " ++ opt ++ "\n" ++ optionLinesFrom (i + 1) rest

/-- The plain-text block for one question at 0-based index `index`:
1-based number, question text, options, correct answer, solution, and a
blank line after. -/
def questionBlockTxt (index : Nat) (q : Question) : String :=
  "Question " ++ toString (index + 1) ++ ": " ++ q.questionText ++ "\n"
    ++ optionLinesFrom 0 q.options
    ++ "Correct Answer: " ++ q.correctAnswer ++ "\n"
    ++ "Solution: " ++ q.solution ++ "\n\n"

/-- The plain-text export of the questions starting at index `i`. -/
def exportTxtFrom : Nat → List Question → String
  | _, [] => ""
  | i, q :: rest => questionBlockTxt i q ++ exportTxtFrom (i + 1) rest

/-- The plain-text export of a question set (the `txt` branch of
`handleExport`). -/
def exportTxt (questions : List Question) : String := exportTxtFrom 0 questions

/-- A CSV field: the value, internal double quotes doubled, in quotes. -/
def csvField (s : String) : String := "\"" ++ s.replace "\"" "\"\"" ++ "\""

/-- The CSV export (the `csv` branch of `handleExport`). -/
def exportCsv (questions : List Question) : String :=
  "\"Question\",\"Correct Answer\",\"Solution\"\n"
    ++ String.join (questions.map (fun q =>
        csvField q.questionText ++ "," ++ csvField q.correctAnswer ++ ","
          ++ csvField q.solution ++ "\n"))

/-- Embedding of `handleExport`: content and download filename per format. -/
def handleExport (format : String) (questions : List Question) : String × String :=
  if format = "csv" then (exportCsv questions, "neet_questions_and_solutions.csv")
  else (exportTxt questions, "neet_questions_and_solutions.txt")

/-! ## The submit handler's state effects

The component state is the five React state variables. `onSubmit` first sets
`loading = true` and clears questions, results, error, and answers, then runs
the pipeline; every thrown error is caught and collapsed into the one error
message. The outcome records the final state, the request payload (when one
was sent), the number of network calls, and the number of `await` suspension
points executed (0 means the handler finished synchronously, so no
intermediate render — in particular no loading render — can be observed). -/

/-- The five state variables of the component. -/
structure AppState where
  loading : Bool
  questions : Option JValue
  answers : Nat → Option String
  results : Option ScoreResult
  error : Option String

/-- The state right after the five leading setters of `onSubmit`. -/
def clearedState : AppState :=
  { loading := true, questions := none, answers := fun _ => none,
    results := none, error := none }

/-- The user-facing message set by the catch block. -/
def errorMessage : String :=
  "Failed to generate questions. Please try again. Ensure files contain relevant text/images."

/-- The observable outcome of one `onSubmit` run. -/
structure SubmitOutcome where
  finalState : AppState
  request : Option GenerationRequest
  requests : Nat
  awaits : Nat

/-- Embedding of `onSubmit`: clear the session state, check the file list is
non-empty (before any encoding or network call), build the payload, run the
transport client, parse, and either store the questions or set the error. -/
def onSubmit (prev : AppState) (files : List File) (numQuestionsRaw : Option Int)
    (t : Nat → Outcome JValue) (decode : String → Option JValue) : SubmitOutcome :=
  let s0 := clearedState
  if files.length = 0 then
    { finalState := { s0 with loading := false, error := some errorMessage },
      request := none, requests := 0, awaits := 0 }
  else
    let numQuestions := effectiveCount numQuestionsRaw
    let payload := buildPayload files numQuestions
    let loop := retryLoop t
    match transportClient t with
    | Except.error _ =>
        { finalState := { s0 with loading := false, error := some errorMessage },
          request := some payload, requests := loop.attempts,
          awaits := files.length + loop.attempts + loop.sleeps.length }
    | Except.ok result =>
        match parseStage decode result with
        | none =>
            { finalState := { s0 with loading := false, error := some errorMessage },
              request := some payload, requests := loop.attempts,
              awaits := files.length + loop.attempts + loop.sleeps.length + 1 }
        | some qs =>
            { finalState := { s0 with loading := false, questions := qs },
              request := some payload, requests := loop.attempts,
              awaits := files.length + loop.attempts + loop.sleeps.length + 1 }

/-! ## Retry loop lemmas -/

/-- One loop iteration where the fetch throws. -/
theorem retryGo_step_thrown {α : Type} (t : Nat → Outcome α) (fuel retries a : Nat)
    (resp : Option (Bool × α)) (s : List Nat) (h : t retries = Outcome.thrown) :
    retryGo t (fuel + 1) retries a resp s =
      retryGo t fuel (retries + 1) (a + 1) resp (s ++ [2 ^ (retries + 1) * 100]) := by
  simp [retryGo, h]

/-- One loop iteration where the fetch returns a non-ok response. -/
theorem retryGo_step_notOk {α : Type} (t : Nat → Outcome α) (fuel retries a : Nat)
    (resp : Option (Bool × α)) (s : List Nat) (b : α)
    (h : t retries = Outcome.resp false b) :
    retryGo t (fuel + 1) retries a resp s =
      retryGo t fuel (retries + 1) (a + 1) (some (false, b))
        (s ++ [2 ^ (retries + 1) * 100]) := by
  simp [retryGo, h]

/-- One loop iteration where the fetch returns an ok response: the loop
breaks at once, with no further sleep. -/
theorem retryGo_step_ok {α : Type} (t : Nat → Outcome α) (fuel retries a : Nat)
    (resp : Option (Bool × α)) (s : List Nat) (b : α)
    (h : t retries = Outcome.resp true b) :
    retryGo t (fuel + 1) retries a resp s = ⟨some (true, b), a + 1, s⟩ := by
  simp [retryGo, h]

/-- The loop makes at most `fuel` further fetch calls. -/
theorem retryGo_attempts_le {α : Type} (t : Nat → Outcome α) :
    ∀ (fuel retries a : Nat) (resp : Option (Bool × α)) (s : List Nat),
      (retryGo t fuel retries a resp s).attempts ≤ a + fuel := by
  intro fuel
  induction fuel with
  | zero => intro retries a resp s; simp [retryGo]
  | succ fuel ih =>
    intro retries a resp s
    rcases h : t retries with _ | ⟨ok, b⟩
    · rw [retryGo_step_thrown t fuel retries a resp s h]
      have := ih (retries + 1) (a + 1) resp (s ++ [2 ^ (retries + 1) * 100])
      omega
    · cases ok with
      | false =>
        rw [retryGo_step_notOk t fuel retries a resp s b h]
        have := ih (retries + 1) (a + 1) (some (false, b)) (s ++ [2 ^ (retries + 1) * 100])
        omega
      | true =>
        rw [retryGo_step_ok t fuel retries a resp s b h]
        show a + 1 ≤ a + (fuel + 1)
        omega

/-- A failed attempt steps the loop: one more fetch, one more sleep of
`2 ^ (retries + 1) * 100`, and the held response still is not ok. -/
theorem retryGo_step_fail {α : Type} (t : Nat → Outcome α) (fuel retries a : Nat)
    (resp : Option (Bool × α)) (s : List Nat) (h : isFail (t retries) = true)
    (hr : ∀ b, resp ≠ some (true, b)) :
    ∃ resp2, (∀ b, resp2 ≠ some (true, b)) ∧
      retryGo t (fuel + 1) retries a resp s =
        retryGo t fuel (retries + 1) (a + 1) resp2 (s ++ [2 ^ (retries + 1) * 100]) := by
  rcases ht : t retries with - | ⟨ok, b⟩
  · exact ⟨resp, hr, retryGo_step_thrown t fuel retries a resp s ht⟩
  · cases ok with
    | false =>
      exact ⟨some (false, b), by simp, retryGo_step_notOk t fuel retries a resp s b ht⟩
    | true =>
      rw [ht] at h
      simp [isFail] at h

/-- When every attempt fails, the loop consumes all its fuel and never ends
up holding an ok response. -/
theorem retryGo_all_fail {α : Type} (t : Nat → Outcome α)
    (hf : ∀ k, isFail (t k) = true) :
    ∀ (fuel retries a : Nat) (resp : Option (Bool × α)) (s : List Nat),
      (∀ b, resp ≠ some (true, b)) →
      (retryGo t fuel retries a resp s).attempts = a + fuel ∧
        ∀ b, (retryGo t fuel retries a resp s).response ≠ some (true, b) := by
  intro fuel
  induction fuel with
  | zero => intro retries a resp s hr; exact ⟨rfl, hr⟩
  | succ fuel ih =>
    intro retries a resp s hr
    rcases h : t retries with _ | ⟨ok, b⟩
    · rw [retryGo_step_thrown t fuel retries a resp s h]
      have := ih (retries + 1) (a + 1) resp (s ++ [2 ^ (retries + 1) * 100]) hr
      exact ⟨by omega, this.2⟩
    · cases ok with
      | false =>
        rw [retryGo_step_notOk t fuel retries a resp s b h]
        have := ih (retries + 1) (a + 1) (some (false, b))
          (s ++ [2 ^ (retries + 1) * 100]) (by intro b' hb'; simp at hb')
        exact ⟨by omega, this.2⟩
      | true =>
        have := hf retries
        rw [h] at this
        simp [isFail] at this

/-- When every attempt fails, the transport client throws the exhaustion
error. -/
theorem transportClient_all_fail {α : Type} (t : Nat → Outcome α)
    (hf : ∀ k, isFail (t k) = true) :
    transportClient t = Except.error exhaustedMsg := by
  obtain ⟨-, hr⟩ := retryGo_all_fail t hf MAX_RETRIES 0 0 none [] (by simp)
  have hr2 : ∀ b, (retryLoop t).response ≠ some (true, b) := hr
  rcases hresp : (retryLoop t).response with - | ⟨ok, body⟩
  · simp [transportClient, hresp]
  · cases ok with
    | false => simp [transportClient, hresp]
    | true => exact absurd hresp (hr2 body)

/-- C1: a transport failing the first two attempts and succeeding on the
third makes the client return the third response immediately, after sleeping
`200` then `400` time units (`2 ^ k * 100` between attempts `k` and `k + 1`),
with 3 total attempts, within the 5-attempt ceiling. -/
theorem transport_retry_third_success {α : Type} (t : Nat → Outcome α) (r : α)
    (h0 : isFail (t 0) = true) (h1 : isFail (t 1) = true)
    (h2 : t 2 = Outcome.resp true r) :
    transportClient t = Except.ok r ∧ (retryLoop t).sleeps = [200, 400] ∧
      (retryLoop t).attempts = 3 ∧ (retryLoop t).attempts ≤ 5 := by
  obtain ⟨r1, hr1, e1⟩ := retryGo_step_fail t 4 0 0 none [] h0 (by simp)
  obtain ⟨r2, -, e2⟩ :=
    retryGo_step_fail t 3 1 1 r1 ([] ++ [2 ^ (0 + 1) * 100]) h1 hr1
  have e3 := retryGo_step_ok t 2 2 2 r2
    (([] ++ [2 ^ (0 + 1) * 100]) ++ [2 ^ (1 + 1) * 100]) r h2
  have hfinal : retryLoop t =
      ⟨some (true, r), 3, ([] ++ [2 ^ (0 + 1) * 100]) ++ [2 ^ (1 + 1) * 100]⟩ :=
    (e1.trans e2).trans e3
  have hsleeps : (([] ++ [2 ^ (0 + 1) * 100]) ++ [2 ^ (1 + 1) * 100] : List Nat)
      = [200, 400] := by norm_num
  refine ⟨?_, ?_, ?_, ?_⟩
  · simp [transportClient, hfinal]
  · simp [hfinal, hsleeps]
  · simp [hfinal]
  · simp [hfinal]

/-- A fake transport that throws on the first two attempts and succeeds on
the third. -/
def failTwiceThenOk : Nat → Outcome Nat :=
  fun k => if k < 2 then Outcome.thrown else Outcome.resp true 42

/-- Witness for the retry-success theorem at a concrete transport. -/
theorem transport_retry_third_success_witness :
    isFail (failTwiceThenOk 0) = true ∧ isFail (failTwiceThenOk 1) = true ∧
      failTwiceThenOk 2 = Outcome.resp true 42 ∧
      (transportClient failTwiceThenOk = Except.ok 42 ∧
        (retryLoop failTwiceThenOk).sleeps = [200, 400] ∧
        (retryLoop failTwiceThenOk).attempts = 3 ∧
        (retryLoop failTwiceThenOk).attempts ≤ 5) :=
  ⟨by decide, by decide, by decide,
    transport_retry_third_success failTwiceThenOk 42 (by decide) (by decide) (by decide)⟩

/-- C2: a transport that fails on every attempt makes the client perform
exactly 5 attempts and then throw the exhaustion error; no success value of
any kind is returned. -/
theorem transport_retry_exhaustion {α : Type} (t : Nat → Outcome α)
    (hf : ∀ k, isFail (t k) = true) :
    transportClient t = Except.error exhaustedMsg ∧ (retryLoop t).attempts = 5 := by
  obtain ⟨ha, -⟩ := retryGo_all_fail t hf MAX_RETRIES 0 0 none [] (by simp)
  exact ⟨transportClient_all_fail t hf, ha⟩

/-- A fake transport that throws on every attempt. -/
def alwaysThrown : Nat → Outcome Nat := fun _ => Outcome.thrown

/-- Witness for the exhaustion theorem at a concrete transport. -/
theorem transport_retry_exhaustion_witness :
    transportClient alwaysThrown = Except.error exhaustedMsg ∧
      (retryLoop alwaysThrown).attempts = 5 :=
  transport_retry_exhaustion alwaysThrown (fun _ => rfl)

/-! ## Scoring lemmas -/

/-- The forEach counter equals the sum of per-index correctness indicators. -/
theorem countCorrectFrom_eq_sum (ans : Nat → Option String) :
    ∀ (qs : List Question) (k : Nat),
      countCorrectFrom ans k qs =
        ((List.range qs.length).map
          (fun j => if ans (k + j) = some ((qs.getD j default).correctAnswer)
            then 1 else 0)).sum := by
  intro qs
  induction qs with
  | nil => intro k; simp [countCorrectFrom]
  | cons q rest ih =>
    intro k
    rw [countCorrectFrom, ih (k + 1), List.length_cons, List.range_succ_eq_map,
      List.map_cons, List.sum_cons, List.map_map]
    congr 1
    refine congrArg List.sum (List.map_congr_left ?_)
    intro j hj
    simp only [Function.comp_apply]
    rw [List.getD_cons_succ, show k + Nat.succ j = k + 1 + j by omega]

/-- The counter never exceeds the number of questions. -/
theorem countCorrectFrom_le_length (ans : Nat → Option String) :
    ∀ (qs : List Question) (k : Nat), countCorrectFrom ans k qs ≤ qs.length := by
  intro qs
  induction qs with
  | nil => intro k; simp [countCorrectFrom]
  | cons q rest ih =>
    intro k
    have := ih (k + 1)
    simp only [countCorrectFrom, List.length_cons]
    split <;> omega

/-- The counter never exceeds the number of answered indices in range. -/
theorem countCorrectFrom_le_answered (ans : Nat → Option String) :
    ∀ (qs : List Question) (k : Nat),
      countCorrectFrom ans k qs ≤
        ((List.range' k qs.length).filter (fun i => (ans i).isSome)).length := by
  intro qs
  induction qs with
  | nil => intro k; simp [countCorrectFrom]
  | cons q rest ih =>
    intro k
    have hrest := ih (k + 1)
    rw [List.length_cons, List.range'_succ, countCorrectFrom]
    rcases hak : ans k with - | v
    · have h1 : (if (none : Option String) = some q.correctAnswer then 1 else 0) = 0 := by
        simp
      have h2 : List.filter (fun i => (ans i).isSome)
            (k :: List.range' (k + 1) rest.length) =
          List.filter (fun i => (ans i).isSome) (List.range' (k + 1) rest.length) := by
        simp [List.filter_cons, hak]
      rw [h1, h2]
      omega
    · have h2 : List.filter (fun i => (ans i).isSome)
            (k :: List.range' (k + 1) rest.length) =
          k :: List.filter (fun i => (ans i).isSome) (List.range' (k + 1) rest.length) := by
        simp [List.filter_cons, hak]
      rw [h2, List.length_cons]
      have h1 : (if (some v : Option String) = some q.correctAnswer then 1 else 0) ≤ 1 := by
        split <;> omega
      omega

/-- Removing answers (or keeping them unchanged) can only lower the counter. -/
theorem countCorrectFrom_mono (ans ans' : Nat → Option String)
    (h : ∀ i, ans' i = none ∨ ans' i = ans i) :
    ∀ (qs : List Question) (k : Nat),
      countCorrectFrom ans' k qs ≤ countCorrectFrom ans k qs := by
  intro qs
  induction qs with
  | nil => intro k; simp [countCorrectFrom]
  | cons q rest ih =>
    intro k
    have hrest := ih (k + 1)
    simp only [countCorrectFrom]
    rcases h k with hk | hk
    · have : (if ans' k = some q.correctAnswer then 1 else 0) = 0 := by simp [hk]
      rw [this]
      split <;> omega
    · rw [hk]
      omega

/-- A three-question demo set with correct answers A, B, C. -/
def demoQuestions : List Question :=
  [ { questionText := "Q1", options := ["o1", "o2", "o3", "o4"],
      correctAnswer := "A", solution := "S1" },
    { questionText := "Q2", options := ["o1", "o2", "o3", "o4"],
      correctAnswer := "B", solution := "S2" },
    { questionText := "Q3", options := ["o1", "o2", "o3", "o4"],
      correctAnswer := "C", solution := "S3" } ]

/-- The demo answer map: 0 maps to A, 1 maps to X, 2 maps to C. -/
def demoAnswers : Nat → Option String :=
  fun i => if i = 0 then some "A" else if i = 1 then some "X"
    else if i = 2 then some "C" else none

/-- C3: scoring counts index `i` correct iff the selected answer equals that
question's `correctAnswer` by exact string equality, the total is the set
size, and the accuracy is `100 * correctCount / totalQuestions`; on the
3-question demo set with answers A, X, C against A, B, C this gives
`2, 3, 200/3` with `200/3` within `0.01` of `66.67`. -/
theorem calculateResults_scoring_spec :
    (∀ (qs : List Question) (ans : Nat → Option String),
        (calculateResults qs ans).score =
          ((List.range qs.length).map
            (fun i => if ans i = some ((qs.getD i default).correctAnswer)
              then 1 else 0)).sum ∧
        (calculateResults qs ans).totalQuestions = qs.length ∧
        (calculateResults qs ans).accuracy =
          (((calculateResults qs ans).score : ℚ) /
            ((calculateResults qs ans).totalQuestions : ℚ)) * 100) ∧
    calculateResults demoQuestions demoAnswers =
      { score := 2, totalQuestions := 3, accuracy := 200 / 3 } ∧
    |(200 : ℚ) / 3 - 6667 / 100| < 1 / 100 := by
  refine ⟨fun qs ans => ⟨?_, rfl, rfl⟩, ?_, ?_⟩
  · have := countCorrectFrom_eq_sum ans qs 0
    simpa [calculateResults] using this
  · have hs : countCorrectFrom demoAnswers 0 demoQuestions = 2 := by decide
    have hl : demoQuestions.length = 3 := by decide
    simp only [calculateResults, hs, hl, ScoreResult.mk.injEq]
    norm_num
  · rw [abs_sub_lt_iff]
    constructor <;> norm_num

/-- C9: unanswered indices are never counted correct (the score is bounded
by the number of answered in-range indices), the total is always the full
set size, the score never exceeds the total, and an answer map that answers
a subset of another (with the same selections) never yields a higher
accuracy. -/
theorem calculateResults_unanswered_monotone (qs : List Question)
    (ans ans' : Nat → Option String)
    (h : ∀ i, ans' i = none ∨ ans' i = ans i) :
    (calculateResults qs ans').totalQuestions = qs.length ∧
    (calculateResults qs ans').score ≤ (calculateResults qs ans').totalQuestions ∧
    (calculateResults qs ans').score ≤
      ((List.range qs.length).filter (fun i => (ans' i).isSome)).length ∧
    (calculateResults qs ans').accuracy ≤ (calculateResults qs ans).accuracy := by
  refine ⟨rfl, countCorrectFrom_le_length ans' qs 0, ?_, ?_⟩
  · have := countCorrectFrom_le_answered ans' qs 0
    rwa [← List.range_eq_range'] at this
  · have hmono := countCorrectFrom_mono ans ans' h qs 0
    show ((countCorrectFrom ans' 0 qs : ℚ) / (qs.length : ℚ)) * 100 ≤
      ((countCorrectFrom ans 0 qs : ℚ) / (qs.length : ℚ)) * 100
    have hle : (countCorrectFrom ans' 0 qs : ℚ) ≤ (countCorrectFrom ans 0 qs : ℚ) := by
      exact_mod_cast hmono
    exact mul_le_mul_of_nonneg_right
      (div_le_div_of_nonneg_right hle (Nat.cast_nonneg qs.length)) (by norm_num)

/-- The empty answer map. -/
def noAnswers : Nat → Option String := fun _ => none

/-- Witness for the scoring monotonicity theorem: the demo set with the
empty answer map against the demo answers. -/
theorem calculateResults_unanswered_monotone_witness :
    (calculateResults demoQuestions noAnswers).totalQuestions = demoQuestions.length ∧
    (calculateResults demoQuestions noAnswers).score ≤
      (calculateResults demoQuestions noAnswers).totalQuestions ∧
    (calculateResults demoQuestions noAnswers).score ≤
      ((List.range demoQuestions.length).filter (fun i => (noAnswers i).isSome)).length ∧
    (calculateResults demoQuestions noAnswers).accuracy ≤
      (calculateResults demoQuestions demoAnswers).accuracy :=
  calculateResults_unanswered_monotone demoQuestions demoAnswers noAnswers
    (fun _ => Or.inl rfl)

/-! ## Parse stage theorems -/

/-- C4 (amended): the parse stage throws — collapsing into the error state —
whenever the expected text fragment is absent or decoding the fragment
fails. (Question records, however, are not field-validated; see the
counterexample below.) -/
theorem parseStage_failure_conditions (decode : String → Option JValue)
    (result : JValue)
    (h : extractText result = none ∨
      ∃ s, extractText result = some s ∧ decode s = none) :
    parseStage decode result = none := by
  rcases h with h | ⟨s, hs, hd⟩
  · simp [parseStage, h]
  · simp [parseStage, hs, hd]

/-- Witness for the parse-failure theorem: an envelope with no `candidates`
field. -/
theorem parseStage_failure_conditions_witness :
    extractText (JValue.jobj []) = none ∧
      parseStage (fun _ => none) (JValue.jobj []) = none :=
  ⟨rfl, parseStage_failure_conditions (fun _ => none) (JValue.jobj [])
    (Or.inl rfl)⟩

/-- The decoded fragment of a well-formed envelope whose single question
record carries only `questionText`. -/
def sampleBody : String := "\x7b\"questions\":[\x7b\"questionText\":\"Q1\"\x7d]\x7d"

/-- What `JSON.parse` yields on `sampleBody`. -/
def sampleParsed : JValue :=
  JValue.jobj [("questions",
    JValue.jarr [JValue.jobj [("questionText", JValue.jstr "Q1")]])]

/-- A decode function behaving like `JSON.parse` on `sampleBody`. -/
def decodeSample : String → Option JValue :=
  fun s => if s = sampleBody then some sampleParsed else none

/-- The service envelope holding the given text fragment at
`candidates[0].content.parts[0].text`. -/
def envelope (payloadText : String) : JValue :=
  JValue.jobj [("candidates", JValue.jarr [JValue.jobj
    [("content", JValue.jobj [("parts", JValue.jarr [JValue.jobj
      [("text", JValue.jstr payloadText)]])])]])]

/-- C4 counterexample: a question record missing the required fields
`options`, `correctAnswer`, and `solution` is accepted by the parse stage —
the batch is stored, not rejected with a malformed-response failure. -/
theorem parseStage_missing_fields_accepted :
    parseStage decodeSample (envelope sampleBody) =
      some (some (JValue.jarr [JValue.jobj [("questionText", JValue.jstr "Q1")]])) ∧
    getField (JValue.jobj [("questionText", JValue.jstr "Q1")]) "options" = none ∧
    getField (JValue.jobj [("questionText", JValue.jstr "Q1")]) "correctAnswer" = none ∧
    getField (JValue.jobj [("questionText", JValue.jstr "Q1")]) "solution" = none := by
  refine ⟨?_, rfl, rfl, rfl⟩
  rfl

/-! ## Prompt builder theorems -/

/-- C6 counterexample: a negative question count is not replaced by the
default 10 — `data.numQuestions || 10` keeps every non-zero number, so the
instruction text embeds `-5`. -/
theorem effectiveCount_negative_passthrough :
    effectiveCount (some (-5)) = -5 ∧
    effectiveCount (some (-5)) ≠ 10 ∧
    instructionOf (buildParts [] (effectiveCount (some (-5)))) =
      some (promptHead ++ "-5" ++ promptTail) := by
  refine ⟨rfl, by decide, ?_⟩
  rfl

/-- C6 (amended): the default 10 is substituted exactly when the count is
omitted or zero (the JS-falsy numbers); every non-zero count, negative ones
included, is used as given. -/
theorem effectiveCount_default_policy (v : Int) (hv : v ≠ 0) :
    effectiveCount none = 10 ∧ effectiveCount (some 0) = 10 ∧
      effectiveCount (some v) = v := by
  refine ⟨rfl, rfl, ?_⟩
  simp [effectiveCount, hv]

/-- Witness for the default policy at the non-zero count `-7`. -/
theorem effectiveCount_default_policy_witness :
    (-7 : Int) ≠ 0 ∧ (effectiveCount none = 10 ∧ effectiveCount (some 0) = 10 ∧
      effectiveCount (some (-7)) = -7) :=
  ⟨by decide, effectiveCount_default_policy (-7) (by decide)⟩

/-- The attachments of a pure inline-data list are its (mimeType, data)
pairs in order. -/
theorem attachments_map (files : List File) :
    attachments (files.map (fun f => Part.inlineData f.type (fileToBase64 f))) =
      files.map (fun f => (f.type, fileToBase64 f)) := by
  induction files with
  | nil => rfl
  | cons f rest ih => simp [attachments, ih]

/-- C7: for a non-empty file list and a count of at least 1, the built parts
carry the attachments in exactly the input file order (each paired with its
own media type and base64 data) and the instruction text embeds exactly the
requested count. -/
theorem buildParts_order_and_embed (files : List File) (n : Int)
    (hne : files ≠ []) (hn : 1 ≤ n) :
    attachments (buildParts files (effectiveCount (some n))) =
      files.map (fun f => (f.type, fileToBase64 f)) ∧
    instructionOf (buildParts files (effectiveCount (some n))) =
      some (promptHead ++ toString n ++ promptTail) := by
  have hz : n ≠ 0 := by omega
  have he : effectiveCount (some n) = n := by simp [effectiveCount, hz]
  rw [he]
  constructor
  · rw [buildParts]
    show attachments (files.map (fun f => Part.inlineData f.type (fileToBase64 f))) = _
    exact attachments_map files
  · rfl

/-- A sample image file. -/
def fileA : File := { name := "a.png", type := "image/png", bytes := [77, 97] }

/-- A sample document file. -/
def fileB : File := { name := "b.pdf", type := "application/pdf", bytes := [1, 2, 3] }

/-- Witness for the prompt-builder theorem on two concrete files and a
count of 3. -/
theorem buildParts_order_and_embed_witness :
    ([fileA, fileB] : List File) ≠ [] ∧ (1 : Int) ≤ 3 ∧
    (attachments (buildParts [fileA, fileB] (effectiveCount (some 3))) =
        [fileA, fileB].map (fun f => (f.type, fileToBase64 f)) ∧
      instructionOf (buildParts [fileA, fileB] (effectiveCount (some 3))) =
        some (promptHead ++ toString (3 : Int) ++ promptTail)) :=
  ⟨by decide, by decide,
    buildParts_order_and_embed [fileA, fileB] 3 (by decide) (by decide)⟩

/-! ## Exporter theorems -/

/-- Every in-range question's block occurs inside the export, at its shifted
index. -/
theorem exportTxtFrom_decomp :
    ∀ (qs : List Question) (k i : Nat), i < qs.length →
      ∃ pre post,
        exportTxtFrom k qs = pre ++ questionBlockTxt (k + i) (qs.getD i default) ++ post := by
  intro qs
  induction qs with
  | nil => intro k i h; simp at h
  | cons q rest ih =>
    intro k i h
    cases i with
    | zero =>
      refine ⟨"", exportTxtFrom (k + 1) rest, ?_⟩
      simp [exportTxtFrom]
    | succ i =>
      obtain ⟨pre, post, hp⟩ := ih (k + 1) i (by simpa using Nat.lt_of_succ_lt_succ h)
      refine ⟨questionBlockTxt k q ++ pre, post, ?_⟩
      rw [exportTxtFrom, hp, List.getD_cons_succ,
        show k + (i + 1) = k + 1 + i by omega]
      simp [String.append_assoc]

/-- Every in-range option's letter-prefixed line occurs inside the option
lines, at its shifted letter. -/
theorem optionLinesFrom_decomp :
    ∀ (opts : List String) (k j : Nat), j < opts.length →
      ∃ a b,
        optionLinesFrom k opts =
          a ++ ("  " ++ letterOf (k + j) ++ ". " ++ opts.getD j "" ++ "\n") ++ b := by
  intro opts
  induction opts with
  | nil => intro k j h; simp at h
  | cons o rest ih =>
    intro k j h
    cases j with
    | zero =>
      refine ⟨"", optionLinesFrom (k + 1) rest, ?_⟩
      simp [optionLinesFrom, String.append_assoc]
    | succ j =>
      obtain ⟨a, b, hp⟩ := ih (k + 1) j (by simpa using Nat.lt_of_succ_lt_succ h)
      refine ⟨"  " ++ letterOf k ++ ". " ++ o ++ "\n" ++ a, b, ?_⟩
      rw [optionLinesFrom, hp, List.getD_cons_succ,
        show k + (j + 1) = k + 1 + j by omega]
      simp [String.append_assoc]

/-- C8: the plain-text export contains, for every question, a block with its
1-based number, its question text, its letter-prefixed option lines, its
correct answer, and its solution, ending in a blank line (the separator);
and the option lines contain each option prefixed with its letter. -/
theorem exportTxt_question_blocks (qs : List Question) (i j : Nat)
    (hi : i < qs.length) (hj : j < (qs.getD i default).options.length) :
    (∃ pre post,
        exportTxt qs =
          pre ++ ("Question " ++ toString (i + 1) ++ ": "
            ++ (qs.getD i default).questionText ++ "\n"
            ++ optionLinesFrom 0 (qs.getD i default).options
            ++ "Correct Answer: " ++ (qs.getD i default).correctAnswer ++ "\n"
            ++ "Solution: " ++ (qs.getD i default).solution ++ "\n\n") ++ post) ∧
    (∃ a b,
        optionLinesFrom 0 (qs.getD i default).options =
          a ++ ("  " ++ letterOf j ++ ". " ++ (qs.getD i default).options.getD j "" ++ "\n")
            ++ b) := by
  constructor
  · obtain ⟨pre, post, hp⟩ := exportTxtFrom_decomp qs 0 i hi
    refine ⟨pre, post, ?_⟩
    rw [exportTxt, hp, Nat.zero_add, questionBlockTxt]
  · have := optionLinesFrom_decomp (qs.getD i default).options 0 j hj
    simpa using this

/-- A sample question for the exporter witness. -/
def demoQ : Question :=
  { questionText := "What is 2 + 2?", options := ["2", "3", "4", "5"],
    correctAnswer := "C", solution := "2 + 2 = 4." }

/-- Witness for the plain-text export theorem on a one-question set. -/
theorem exportTxt_question_blocks_witness :
    (0 < ([demoQ] : List Question).length) ∧
    (0 < (([demoQ] : List Question).getD 0 default).options.length) ∧
    ((∃ pre post,
        exportTxt [demoQ] =
          pre ++ ("Question " ++ toString (0 + 1) ++ ": "
            ++ (([demoQ] : List Question).getD 0 default).questionText ++ "\n"
            ++ optionLinesFrom 0 (([demoQ] : List Question).getD 0 default).options
            ++ "Correct Answer: "
            ++ (([demoQ] : List Question).getD 0 default).correctAnswer ++ "\n"
            ++ "Solution: "
            ++ (([demoQ] : List Question).getD 0 default).solution ++ "\n\n") ++ post) ∧
    (∃ a b,
        optionLinesFrom 0 (([demoQ] : List Question).getD 0 default).options =
          a ++ ("  " ++ letterOf 0 ++ ". "
            ++ (([demoQ] : List Question).getD 0 default).options.getD 0 "" ++ "\n")
            ++ b)) :=
  ⟨by decide, by decide, exportTxt_question_blocks [demoQ] 0 0 (by decide) (by decide)⟩

/-! ## Submit handler theorems -/

/-- C5: a submit with an empty file list finishes in the error state with no
suspension point executed (`awaits = 0`, so the handler ran synchronously
and no loading render is observable), no request built and no network call
made, and `loading` already reset to `false`. -/
theorem onSubmit_empty_files_sync (prev : AppState) (nq : Option Int)
    (t : Nat → Outcome JValue) (d : String → Option JValue) :
    (onSubmit prev [] nq t d).requests = 0 ∧
    (onSubmit prev [] nq t d).request = none ∧
    (onSubmit prev [] nq t d).awaits = 0 ∧
    (onSubmit prev [] nq t d).finalState.loading = false ∧
    (onSubmit prev [] nq t d).finalState.error = some errorMessage ∧
    (onSubmit prev [] nq t d).finalState.questions = none :=
  ⟨rfl, rfl, rfl, rfl, rfl, rfl⟩

/-- C10: the outcome of a submit never depends on the prior state (all five
state variables are cleared up front, before encoding or network work), and
when the generation fails on every transport attempt the session ends in
the error state with no questions, no results, and an empty answer map —
the prior session's data is discarded, not restored. -/
theorem onSubmit_clears_prior_session (prev prev' : AppState) (files : List File)
    (nq : Option Int) (t : Nat → Outcome JValue) (d : String → Option JValue)
    (hf : ∀ k, isFail (t k) = true) :
    onSubmit prev files nq t d = onSubmit prev' files nq t d ∧
    (onSubmit prev files nq t d).finalState.questions = none ∧
    (onSubmit prev files nq t d).finalState.results = none ∧
    (onSubmit prev files nq t d).finalState.answers = (fun _ => none) ∧
    (onSubmit prev files nq t d).finalState.error = some errorMessage := by
  have htc := transportClient_all_fail t hf
  refine ⟨rfl, ?_⟩
  by_cases hlen : files.length = 0
  · simp [onSubmit, hlen, clearedState]
  · refine ?_
    simp only [onSubmit, hlen, if_neg, htc]
    simp [clearedState]

/-- A stale prior session: loaded questions, full answers, a perfect score. -/
def staleState : AppState :=
  { loading := false, questions := some (JValue.jstr "old"),
    answers := fun _ => some "A",
    results := some { score := 1, totalQuestions := 1, accuracy := 100 },
    error := none }

/-- A transport over JSON bodies that throws on every attempt. -/
def alwaysThrownJ : Nat → Outcome JValue := fun _ => Outcome.thrown

/-- Witness for the session-clearing theorem: submitting from a stale scored
session with a transport that always fails. -/
theorem onSubmit_clears_prior_session_witness :
    onSubmit staleState [fileA] none alwaysThrownJ (fun _ => none) =
        onSubmit clearedState [fileA] none alwaysThrownJ (fun _ => none) ∧
    (onSubmit staleState [fileA] none alwaysThrownJ (fun _ => none)).finalState.questions
        = none ∧
    (onSubmit staleState [fileA] none alwaysThrownJ (fun _ => none)).finalState.results
        = none ∧
    (onSubmit staleState [fileA] none alwaysThrownJ (fun _ => none)).finalState.answers
        = (fun _ => none) ∧
    (onSubmit staleState [fileA] none alwaysThrownJ (fun _ => none)).finalState.error
        = some errorMessage :=
  onSubmit_clears_prior_session staleState clearedState [fileA] none alwaysThrownJ
    (fun _ => none) (fun _ => rfl)

end NeetQuiz
